import Mathlib

/-!
# Verification of the rom-builder orchestration script

Shallow embedding of `src/rom-builder/rom-builder.py`.  The script is a
linear command-line orchestrator: static configuration tables, option
resolution, environment setup (repo sync), simulated build narration,
documentation generation and an error classifier.  We embed the data model
and the observable behaviour (side effects as an explicit event trace,
external-process results and the filesystem as an explicit `World`) and
prove the specification claims about it.
-/

/-- A single-quote character, used inside the literal error messages of the
script (for example `Error: Invalid ROM 'foo'. ...`). -/
def squote : String := String.mk [Char.ofNat 39]

/-- Is `needle` a contiguous sublist of `hay`? -/
def listInfixOf (needle hay : List Char) : Bool :=
  (List.range (hay.length + 1)).any fun i => needle.isPrefixOf (hay.drop i)

/-- Python substring test `needle in hay`. -/
def containsSubstr (needle hay : String) : Bool :=
  listInfixOf needle.toList hay.toList

/-- `true` when no character of the list is a newline (regex `.` in Python
does not match newlines). -/
def noNewline (cs : List Char) : Bool :=
  cs.all (fun c => c != Char.ofNat 10)

/-- Does `s` start with `pre`, followed by some (possibly empty) run of
non-newline characters, followed by `post`?  This is the anchored form of a
Python regex `pre.*post`. -/
def sandwichAt (pre post s : List Char) : Bool :=
  pre.isPrefixOf s &&
    (let rest := s.drop pre.length
     (List.range (rest.length + 1)).any fun k =>
       noNewline (rest.take k) && post.isPrefixOf (rest.drop k))

/-- `re.search` of the pattern `pre.*post` over `s`: the anchored match may
start at any position. -/
def regexSearchSandwich (pre post s : List Char) : Bool :=
  (List.range (s.length + 1)).any fun i => sandwichAt pre post (s.drop i)

/-- The categories reported by `RomBuilder.analyze_build_error`
(source lines 212-235), in their fixed priority order. -/
inductive ErrorCategory where
  | missingPackage
  | cppCompile
  | outOfMemory
  | diskSpace
  | unclassified
deriving DecidableEq

/-- The signature scan of `analyze_build_error` (source lines 223-233):
two `re.search` patterns followed by two plain substring tests, first match
in the fixed order wins, otherwise unclassified. -/
def classifyLog (content : String) : ErrorCategory :=
  if regexSearchSandwich "error: package ".toList " does not exist".toList
      content.toList then .missingPackage
  else if regexSearchSandwich ("error: " ++ squote).toList
      (squote ++ " has no member named").toList content.toList then .cppCompile
  else if containsSubstr "Out of memory" content then .outOfMemory
  else if containsSubstr "No space left on device" content then .diskSpace
  else .unclassified

/-- `RomBuilder.analyze_build_error` (source lines 212-235).  The input is
`none` when the log file does not exist, `some content` otherwise.  The
function logs a category (second component) and returns a boolean (first
component): `return False` at line 216 for a missing file and `return False`
at line 235 after every classification. -/
def analyze_build_error (log : Option String) : Bool × Option ErrorCategory :=
  match log with
  | none => (false, none)
  | some content => (false, some (classifyLog content))

/-- `RomInfo` (source lines 52-57). -/
structure RomInfo where
  name : String
  directory : String
  manifest_url : String
  branch : String
deriving DecidableEq

/-- `DeviceInfo` (source lines 45-49). -/
structure DeviceInfo where
  name : String
  soc : String
  manufacturer : String
deriving DecidableEq

/-- The axion row of `Config.ROM_INFO` (source line 69). -/
def axionInfo : RomInfo :=
  ⟨"Axion AOSP", "ax", "https://github.com/AxionAOSP/android.git",
    "lineage-22.2"⟩

/-- The lmodroid row of `Config.ROM_INFO` (source line 70). -/
def lmodroidInfo : RomInfo :=
  ⟨"LMODroid", "lmo", "https://git.libremobileos.com/LMODroid/manifest.git",
    "fifteen"⟩

/-- `Config.ROM_INFO` (source lines 68-71). -/
def ROM_INFO : List (String × RomInfo) :=
  [("axion", axionInfo), ("lmodroid", lmodroidInfo)]

/-- `Config.DEVICE_INFO` (source lines 62-65). -/
def DEVICE_INFO : List (String × DeviceInfo) :=
  [("pipa", ⟨"Xiaomi Pad 6", "sm8250", "xiaomi"⟩),
   ("raven", ⟨"Google Pixel 6 Pro", "gs101", "google"⟩)]

deriving instance DecidableEq for Except

/-- Python membership test `r in Config.ROM_INFO`. -/
def romValid (r : String) : Bool := (ROM_INFO.lookup r).isSome

/-- Python membership test `d in Config.DEVICE_INFO`. -/
def deviceValid (d : String) : Bool := (DEVICE_INFO.lookup d).isSome

/-- Python membership test `v in ["vanilla", "gms", "both"]`. -/
def variantValid (v : String) : Bool := ["vanilla", "gms", "both"].contains v

/-- `BuildOptions` (source lines 32-42): the resolved configuration of one
invocation. -/
structure BuildOptions where
  rom : String
  device : String
  variant : String
  use_server_path : Bool
  date_string : String
  skip_sync : Bool
  clean_build : Bool
  build_fastboot : Bool
  interactive : Bool
deriving DecidableEq

/-- The parsed command-line arguments of `main` (source lines 927-936).
String flags are `none` when absent. -/
structure Args where
  rom : Option String
  device : Option String
  variant : Option String
  non_interactive : Bool
  local_path : Bool
  skip_sync : Bool
  clean_build : Bool
  build_fastboot : Bool

/-- Construction of `BuildOptions` from arguments (source lines 939-948).
`args.rom or ""` maps `None` and `""` both to `""`; `today` is the
`datetime.now().strftime("%Y%m%d")` default of `date_string`. -/
def optionsOfArgs (a : Args) (today : String) : BuildOptions :=
  { rom := a.rom.getD ""
    device := a.device.getD ""
    variant := a.variant.getD ""
    use_server_path := !a.local_path
    date_string := today
    skip_sync := a.skip_sync
    clean_build := a.clean_build
    build_fastboot := a.build_fastboot
    interactive := !a.non_interactive }

/-- Exceptions the script can raise: `KeyError` from a dictionary lookup
(for example `Config.ROM_INFO[rom]`, line 484) and `OSError` from a file
operation (for example `os.makedirs` in `generate_docs`, line 343).  The
script installs no handler for either, so they abort the process. -/
inductive PyError where
  | keyError (key : String)
  | ioError (path : String)
deriving DecidableEq

/-- One observable side effect of the script.  Console narration via
`logger.info` is not a side effect we track; writes to the per-run log
file, filesystem operations, subprocess invocations, environment-variable
mutation and the simulated build/doc/upload steps are. -/
inductive Event where
  | consoleError (msg : String)
  | logWrite (line : String)
  | mkdir (path : String)
  | rmtree (path : String)
  | chdir (path : String)
  | runCmd (cmd : String)
  | copytree (src : String) (dst : String)
  | setEnv (key : String) (value : String)
  | updateDeviceTrees
  | docGen (path : String)
  | buildAxion (variant : String) (device : String)
  | buildLmodroid (device : String)
  | upload
  | elapsedTime
deriving DecidableEq

/-- The environment a run executes in: clock strings, the filesystem
(existing directories and files), availability of the external
dependencies, the machine's core count, the exit codes the external `repo`
invocations will return, whether writing the report file succeeds, and the
(eventually valid) selections the interactive prompts would produce.  The
numbered-menu prompts of the script loop until a valid selection is
entered, so each is modelled by the valid selection eventually chosen. -/
structure World where
  timestamp : String
  today : String
  dirs : List String
  files : List String
  depsOk : Bool
  cpuCores : Nat
  repoInitExit : Nat
  repoSyncExit : Nat
  docWriteOk : Bool
  promptRom : Fin 2
  promptDevice : Fin 2
  promptVariant : Fin 3
  promptServer : Bool
  promptSkip : Bool
  promptClean : Bool
  promptFastboot : Bool

/-- `os.path.isdir` against the modelled filesystem. -/
def isdir (w : World) (p : String) : Bool := w.dirs.contains p

/-- Python `str(bool)` rendering used by the log header. -/
def pyStr (b : Bool) : String := if b then "True" else "False"

/-- `RomBuilder.setup_logging` (source lines 140-151): the three header
lines written to the per-run log file.  No other method writes to this
file. -/
def setup_logging (ts : String) (o : BuildOptions) : List String :=
  ["ROM Builder Log - " ++ ts,
   "ROM: " ++ o.rom ++ " | Device: " ++ o.device ++ " | Variant: " ++ o.variant,
   "Skip sync: " ++ pyStr o.skip_sync ++ " | Clean build: " ++ pyStr o.clean_build]

/-- The interactive question/answer block of `RomBuilder.run`
(source lines 776-858).  Each numbered-menu prompt loops until a valid
selection is entered; the valid selection eventually entered is supplied by
the `World`.  ROM/device/variant are only asked for when missing; the
output-path, skip-sync, clean-build and fastboot questions are always asked
once the block is entered. -/
def resolveOptions (o : BuildOptions) (w : World) : BuildOptions :=
  let o := if o.rom == "" then
    { o with rom := (ROM_INFO.map Prod.fst).getD w.promptRom.val "" } else o
  let o := if o.device == "" then
    { o with device := (DEVICE_INFO.map Prod.fst).getD w.promptDevice.val "" } else o
  let o := if o.rom == "axion" && o.variant == "" then
    { o with variant := ["vanilla", "gms", "both"].getD w.promptVariant.val "" } else o
  { o with
    use_server_path := w.promptServer
    skip_sync := w.promptSkip
    clean_build := w.promptClean
    build_fastboot := w.promptFastboot }

/-- The guard of the interactive block (source lines 774-775). -/
def missingSelections (o : BuildOptions) : Bool :=
  o.rom == "" || o.device == "" || (o.rom == "axion" && o.variant == "")

/-- The options in force after the interactive block of `run`. -/
def resolvedOptions (o : BuildOptions) (w : World) : BuildOptions :=
  if o.interactive && missingSelections o then resolveOptions o w else o

/-- The full-sync procedure of `setup_environment` (source lines 530-562):
remove any existing tree, recreate the directory, `repo init` against the
manifest, `repo sync` with one job per core, then copy `~/vendor` if
present.  Returns whether it succeeded together with the events it
performed (a non-zero exit of either `repo` invocation aborts it). -/
def syncEvents (ri : RomInfo) (w : World) : Bool × List Event :=
  let romPath := "~/" ++ ri.directory
  let ev := (if isdir w romPath then [Event.rmtree romPath] else []) ++
    [Event.mkdir romPath, Event.chdir romPath,
     Event.runCmd ("repo init -u " ++ ri.manifest_url ++ " -b " ++ ri.branch
       ++ " --git-lfs")]
  if w.repoInitExit != 0 then (false, ev)
  else
    let ev := ev ++ [Event.runCmd ("repo sync -c -j" ++ toString w.cpuCores
      ++ " --force-sync --no-clone-bundle --no-tags")]
    if w.repoSyncExit != 0 then (false, ev)
    else (true, ev ++ (if isdir w "~/vendor" then
      [Event.copytree "~/vendor" (romPath ++ "/vendor")] else []))

/-- `RomBuilder.setup_environment` (source lines 479-655).  The two
dictionary lookups at lines 484 and 490 raise `KeyError` for an unknown
key.  With `skip_sync` requested, a missing source directory falls back to
a full sync by clearing `options.skip_sync` (line 525); an existing
directory is reused with a `chdir` and *no further validation* (lines
526-528).  `update_device_trees` (lines 398-477, interactive git pulls over
a fixed repository list) is represented by a single event since it is only
reached when interactive and skipping sync (lines 566-569); the rest of the
method is console narration plus the two environment-variable writes of
lines 575-576.  Returns the (possibly mutated) options, the success flag
and the event trace. -/
def setup_environment (o : BuildOptions) (w : World) :
    Except PyError (BuildOptions × Bool) × List Event :=
  match ROM_INFO.lookup o.rom with
  | none => (.error (.keyError o.rom), [])
  | some ri =>
    match DEVICE_INFO.lookup o.device with
    | none => (.error (.keyError o.device), [])
    | some _ =>
      let romPath := "~/" ++ ri.directory
      let o2 := if o.skip_sync && !(isdir w romPath) then
        { o with skip_sync := false } else o
      if o2.skip_sync then
        (.ok (o2, true),
          [Event.chdir romPath] ++
          (if o.interactive then [Event.updateDeviceTrees] else []) ++
          [Event.setEnv "ROM_DIR" ri.directory, Event.setEnv "DEVICE" o.device])
      else
        let t := syncEvents ri w
        if t.1 then
          (.ok (o2, true), t.2 ++
            [Event.setEnv "ROM_DIR" ri.directory, Event.setEnv "DEVICE" o.device])
        else (.ok (o2, false), t.2)

/-- The report path of `RomBuilder.generate_docs` (source lines 331-340);
`variant?` is the optional `variant` parameter, and the Python guard
`variant and variant != "both"` is true for a non-empty value other than
`"both"`. -/
def docFile (o : BuildOptions) (variant? : Option String) : String :=
  let hasVar := o.rom == "axion" &&
    (match variant? with | some v => v != "" && v != "both" | none => false)
  if o.use_server_path then
    if hasVar then
      "/var/www/html/" ++ o.rom ++ "-" ++ o.device ++ "-releases-" ++
        o.date_string ++ "/" ++ variant?.getD "" ++ "/README.md"
    else
      "/var/www/html/" ++ o.rom ++ "-" ++ o.device ++ "-releases-" ++
        o.date_string ++ "/README.md"
  else
    if hasVar then
      "~/" ++ o.rom ++ "-" ++ o.device ++ "-releases/" ++ variant?.getD ""
        ++ "/README.md"
    else
      "~/" ++ o.rom ++ "-" ++ o.device ++ "-releases/README.md"

/-- `os.path.dirname`: drop the final path component (everything from the
last slash on; empty when the path has no slash). -/
def dirname (p : String) : String :=
  String.mk (((p.toList.reverse.dropWhile fun c => c != '/').drop 1).reverse)

/-- `RomBuilder.generate_docs` (source lines 327-396): create the parent
directory of the report file and write it.  No caller wraps this in a
`try`, so a failing directory/file creation (`w.docWriteOk = false`, for
example `/var/www/html` not being writable) raises an uncaught `OSError`. -/
def generate_docs (o : BuildOptions) (variant? : Option String) (w : World) :
    Except PyError String × List Event :=
  let f := docFile o variant?
  if w.docWriteOk then (.ok f, [Event.mkdir (dirname f), Event.docGen f])
  else (.error (.ioError (dirname f)), [])

/-- `RomBuilder.build_axion` (source lines 657-697): narrates the build of
one variant (console only), computes the release directory (console only)
and generates the per-variant documentation.  It returns `True`
unconditionally when no exception occurs. -/
def build_axion (o : BuildOptions) (variant device : String) (w : World) :
    Except PyError Bool × List Event :=
  let t := generate_docs o (some variant) w
  (t.1.map (fun _ => true), Event.buildAxion variant device :: t.2)

/-- `RomBuilder.build_lmodroid` (source lines 699-733): same shape as
`build_axion` without a variant. -/
def build_lmodroid (o : BuildOptions) (device : String) (w : World) :
    Except PyError Bool × List Event :=
  let t := generate_docs o none w
  (t.1.map (fun _ => true), Event.buildLmodroid device :: t.2)

/-- The build dispatch of `RomBuilder.run` (source lines 903-910):
`variant == "both"` for axion builds vanilla then gms; the boolean results
of the build calls are discarded. -/
def buildDispatch (o : BuildOptions) (w : World) :
    Except PyError Unit × List Event :=
  if o.rom == "axion" then
    if o.variant == "both" then
      let t1 := build_axion o "vanilla" o.device w
      match t1.1 with
      | .error e => (.error e, t1.2)
      | .ok _ =>
        let t2 := build_axion o "gms" o.device w
        (t2.1.map (fun _ => ()), t1.2 ++ t2.2)
    else
      let t := build_axion o o.variant o.device w
      (t.1.map (fun _ => ()), t.2)
  else
    let t := build_lmodroid o o.device w
    (t.1.map (fun _ => ()), t.2)

/-- `RomBuilder.run` (source lines 761-920): dependency check, log-file
header, interactive resolution, environment setup (`return 1` on failure),
build dispatch, elapsed-time report, `return 0`.  The result carries the
exit code and the final options (or the uncaught exception) together with
the event trace performed up to that point. -/
def run (o : BuildOptions) (w : World) :
    Except PyError (Nat × BuildOptions) × List Event :=
  if !w.depsOk then (.ok (1, o), [])
  else
    let evLog := (setup_logging w.timestamp o).map Event.logWrite
    let o1 := resolvedOptions o w
    match setup_environment o1 w with
    | (.error e, evS) => (.error e, evLog ++ evS)
    | (.ok (o2, ok), evS) =>
      if !ok then (.ok (1, o2), evLog ++ evS)
      else
        match buildDispatch o2 w with
        | (.error e, evB) => (.error e, evLog ++ evS ++ evB)
        | (.ok _, evB) =>
          (.ok (0, o2), evLog ++ evS ++ evB ++ [Event.elapsedTime])

/-- The `Error: Invalid ROM ...` message of `main` (source line 952). -/
def romErrMsg (r : String) : String :=
  ("Error: Invalid ROM " ++ squote ++ r ++ squote ++ ". Valid options are: ")
    ++ "axion, lmodroid"

/-- The `Error: Invalid device ...` message of `main` (source line 956). -/
def deviceErrMsg (d : String) : String :=
  ("Error: Invalid device " ++ squote ++ d ++ squote ++ ". Valid options are: ")
    ++ "pipa, raven"

/-- The `Error: Invalid variant ...` message of `main` (source line 960). -/
def variantErrMsg (v : String) : String :=
  ("Error: Invalid variant " ++ squote ++ v ++ squote ++ ". Valid options are: ")
    ++ "vanilla, gms, both"

/-- `main` (source lines 923-970): build the options, validate the three
selection flags eagerly (a non-empty unknown value prints the message
listing the valid options and returns exit code 1 before anything else
happens), then construct `RomBuilder` (whose `__init__`, line 138, creates
the log directory) and call `run`.  (Named `mainEntry` because Lean
reserves `main` for an `IO` entry point.) -/
def mainEntry (a : Args) (w : World) :
    Except PyError (Nat × BuildOptions) × List Event :=
  let o := optionsOfArgs a w.today
  if o.rom != "" && !(romValid o.rom) then
    (.ok (1, o), [Event.consoleError (romErrMsg o.rom)])
  else if o.device != "" && !(deviceValid o.device) then
    (.ok (1, o), [Event.consoleError (deviceErrMsg o.device)])
  else if o.variant != "" && !(variantValid o.variant) then
    (.ok (1, o), [Event.consoleError (variantErrMsg o.variant)])
  else
    let t := run o w
    (t.1, Event.mkdir "~/rom_build_logs" :: t.2)

/-- The exit code of a finished process: `some c` for a normal return,
`none` when an uncaught exception aborted it (such a process exits
non-zero via the interpreter, but not through `run`'s return value). -/
def exitCode : Except PyError (Nat × BuildOptions) → Option Nat
  | .ok (c, _) => some c
  | .error _ => none

/-- The lines a trace writes to the per-run log file. -/
def logWrites (evs : List Event) : List String :=
  evs.filterMap fun e => match e with | .logWrite l => some l | _ => none

/-- The build-narrator invocations of a trace. -/
def buildEvents (evs : List Event) : List Event :=
  evs.filter fun e => match e with
    | .buildAxion _ _ => true
    | .buildLmodroid _ => true
    | _ => false

/-- The documentation-generation events of a trace. -/
def docEvents (evs : List Event) : List Event :=
  evs.filter fun e => match e with | .docGen _ => true | _ => false

/-- Events that are pure environment plumbing: everything except log-file
writes, console errors, doc generation, build narration, upload and the
elapsed-time report.  `setup_environment` only ever emits these. -/
def plumbing (e : Event) : Bool :=
  match e with
  | .mkdir _ => true
  | .rmtree _ => true
  | .chdir _ => true
  | .runCmd _ => true
  | .copytree _ _ => true
  | .setEnv _ _ => true
  | .updateDeviceTrees => true
  | _ => false

/-- A trace consisting only of plumbing events. -/
def cleanTrace (evs : List Event) : Bool := evs.all plumbing

/-- The exact `repo init` command line for the axion manifest
(source line 542 with the axion row of `ROM_INFO`). -/
def axionRepoInit : String :=
  "repo init -u https://github.com/AxionAOSP/android.git -b lineage-22.2 --git-lfs"

/-- Modelled from the spec: the artifact file-name rules of the build step
(spec section 4.4).  The repository is described as two near-duplicate
scripts, and the script that actually derives package file names is not
under `src/` — the Python file's `build_axion` (lines 657-697) only
narrates the build and derives no artifact names.  Per the spec, the
primary package name embeds the rom id, a fixed version token, the
date-stamp, an OFFICIAL/UNOFFICIAL marker, the upper-cased variant and the
device id.  The concrete value of the version token is not specified. -/
def versionToken : String := "v1.0"

/-- Modelled from the spec: the OFFICIAL/UNOFFICIAL marker of the primary
package name (spec section 4.4). -/
def officialMarker (official : Bool) : String :=
  if official then "OFFICIAL" else "UNOFFICIAL"

/-- Upper-case a string character by character. -/
def strUpper (s : String) : String := String.mk (s.toList.map Char.toUpper)

/-- Modelled from the spec: the primary package name (spec section 4.4,
first naming rule). -/
def primaryPackageName (rom version date : String) (official : Bool)
    (variant device : String) : String :=
  rom ++ "-" ++ version ++ "-" ++ date ++ "-" ++ officialMarker official ++
    "-" ++ strUpper variant ++ "-" ++ device ++ ".zip"

/-- Modelled from the spec: the FASTBOOT-suffixed package name derived
alongside the primary when fastboot is requested (spec section 4.4, second
naming rule). -/
def fastbootPackageName (rom version date : String) (official : Bool)
    (variant device : String) : String :=
  rom ++ "-" ++ version ++ "-" ++ date ++ "-" ++ officialMarker official ++
    "-" ++ strUpper variant ++ "-" ++ device ++ "-FASTBOOT.zip"

/-- Modelled from the spec: the OTA metadata file name derived when
fastboot is not requested and the variant is the default informational
variant (spec section 4.4, third naming rule; the worked example in
section 8 names it `pipa-vanilla.json`). -/
def otaMetadataFileName (device variant : String) : String :=
  device ++ "-" ++ variant ++ ".json"

/-- Modelled from the spec: the complete artifact name set of one build
invocation as a function of (rom, device, variant, date-stamp,
fastboot-flag) (spec sections 4.4 and 8). -/
def artifactNames (rom version date : String) (official : Bool)
    (variant device : String) (fastboot : Bool) : List String :=
  [primaryPackageName rom version date official variant device] ++
  (if fastboot then
    [fastbootPackageName rom version date official variant device] else []) ++
  (if !fastboot && variant == "vanilla" then
    [otaMetadataFileName device variant] else [])

/-- A benign environment: both dependencies and `repo` succeed, the report
location is writable, no relevant directories exist yet, and the
interactive prompts (if reached) would pick the first menu entries. -/
def goodWorld : World :=
  { timestamp := "20240101_120000", today := "20240101", dirs := [], files := [],
    depsOk := true, cpuCores := 8, repoInitExit := 0, repoSyncExit := 0,
    docWriteOk := true, promptRom := 0, promptDevice := 0, promptVariant := 0,
    promptServer := true, promptSkip := false, promptClean := true,
    promptFastboot := true }

/-- A fully specified non-interactive axion/pipa/vanilla invocation that
requests `--skip-sync`. -/
def skipOpts : BuildOptions :=
  { rom := "axion", device := "pipa", variant := "vanilla",
    use_server_path := true, date_string := "20240101", skip_sync := true,
    clean_build := false, build_fastboot := false, interactive := false }

/-- `goodWorld` with an existing source tree directory at `~/ax` (and no
files at all, in particular no source-tree marker file). -/
def treeWorld : World := { goodWorld with dirs := ["~/ax"] }

/-- `treeWorld` with an unwritable report location. -/
def docFailWorld : World := { treeWorld with docWriteOk := false }

/-- A non-interactive invocation of an unknown ROM id. -/
def argsBadRom : Args :=
  ⟨some "foo", some "pipa", none, true, false, false, false, false⟩

/-- A non-interactive invocation with the ROM selection absent. -/
def argsRomMissing : Args :=
  ⟨none, some "pipa", none, true, false, false, false, false⟩

/-- A non-interactive axion invocation with the variant selection absent. -/
def argsVariantMissing : Args :=
  ⟨some "axion", some "pipa", none, true, false, false, false, false⟩

/-- A fully defaulted invocation that will be resolved interactively. -/
def promptOpts : BuildOptions :=
  { rom := "", device := "", variant := "", use_server_path := true,
    date_string := "20240101", skip_sync := false, clean_build := true,
    build_fastboot := true, interactive := true }

/-- Non-interactive axion/pipa invocation of the `both` variant. -/
def bothOpts : BuildOptions := { skipOpts with variant := "both", skip_sync := false }

theorem logWrites_append (a b : List Event) :
    logWrites (a ++ b) = logWrites a ++ logWrites b := by
  simp [logWrites, List.filterMap_append]

theorem buildEvents_append (a b : List Event) :
    buildEvents (a ++ b) = buildEvents a ++ buildEvents b := by
  simp [buildEvents, List.filter_append]

theorem docEvents_append (a b : List Event) :
    docEvents (a ++ b) = docEvents a ++ docEvents b := by
  simp [docEvents, List.filter_append]

theorem logWrites_map_logWrite (ls : List String) :
    logWrites (ls.map Event.logWrite) = ls := by
  induction ls with
  | nil => rfl
  | cons a t ih => simpa [logWrites, List.filterMap_cons] using ih

theorem buildEvents_map_logWrite (ls : List String) :
    buildEvents (ls.map Event.logWrite) = [] := by
  induction ls with
  | nil => rfl
  | cons a t ih => simp [buildEvents, List.filter_cons]

theorem docEvents_map_logWrite (ls : List String) :
    docEvents (ls.map Event.logWrite) = [] := by
  induction ls with
  | nil => rfl
  | cons a t ih => simp [docEvents, List.filter_cons]

theorem cleanTrace_facts (evs : List Event) (h : cleanTrace evs = true) :
    logWrites evs = [] ∧ buildEvents evs = [] ∧ docEvents evs = [] ∧
    Event.elapsedTime ∉ evs ∧ Event.upload ∉ evs := by
  induction evs with
  | nil => simp [logWrites, buildEvents, docEvents]
  | cons e t ih =>
    rw [cleanTrace, List.all_cons, Bool.and_eq_true] at h
    obtain ⟨he, ht⟩ := h
    obtain ⟨h1, h2, h3, h4, h5⟩ := ih ht
    cases e <;> simp_all [logWrites, buildEvents, docEvents, plumbing,
      List.filterMap_cons, List.filter_cons]

theorem syncEvents_ok (ri : RomInfo) (w : World) (hi : w.repoInitExit = 0)
    (hs : w.repoSyncExit = 0) : (syncEvents ri w).1 = true := by
  simp [syncEvents, hi, hs]

theorem cleanTrace_append (a b : List Event) :
    cleanTrace (a ++ b) = (cleanTrace a && cleanTrace b) := by
  simp [cleanTrace, List.all_append]

theorem cleanTrace_syncEvents (ri : RomInfo) (w : World) :
    cleanTrace (syncEvents ri w).2 = true := by
  unfold syncEvents
  by_cases h1 : (w.repoInitExit != 0) = true <;>
  by_cases h2 : (w.repoSyncExit != 0) = true <;>
  by_cases h3 : isdir w ("~/" ++ ri.directory) = true <;>
  by_cases h4 : isdir w "~/vendor" = true <;>
  simp [h1, h2, h3, h4, cleanTrace, plumbing, List.all_append, List.all_cons]

theorem cleanTrace_setup (o : BuildOptions) (w : World) :
    cleanTrace (setup_environment o w).2 = true := by
  unfold setup_environment
  rcases hR : ROM_INFO.lookup o.rom with _ | ri
  · rfl
  · rcases hD : DEVICE_INFO.lookup o.device with _ | di
    · rfl
    · have hsync := cleanTrace_syncEvents ri w
      by_cases hint : o.interactive = true <;>
      by_cases hskip : o.skip_sync = true <;>
      by_cases hdir : isdir w ("~/" ++ ri.directory) = true <;>
      by_cases hok : (syncEvents ri w).1 = true <;>
      simp_all [cleanTrace_append, cleanTrace, plumbing, List.all_append,
        List.all_cons]

theorem resolvedOptions_noninteractive (o : BuildOptions) (w : World)
    (h : o.interactive = false) : resolvedOptions o w = o := by
  simp [resolvedOptions, h]

theorem setup_environment_opts (o : BuildOptions) (w : World)
    (o2 : BuildOptions) (ok : Bool)
    (h : (setup_environment o w).1 = .ok (o2, ok)) :
    o2 = o ∨ o2 = { o with skip_sync := false } := by
  unfold setup_environment at h
  rcases hR : ROM_INFO.lookup o.rom with _ | ri <;> rw [hR] at h
  · simp at h
  · rcases hD : DEVICE_INFO.lookup o.device with _ | di <;> rw [hD] at h
    · simp at h
    · by_cases hskip : o.skip_sync = true <;>
      by_cases hdir : isdir w ("~/" ++ ri.directory) = true <;>
      by_cases hok : (syncEvents ri w).1 = true <;>
      simp_all

theorem setup_environment_success (o : BuildOptions) (w : World)
    (hr : romValid o.rom = true) (hd : deviceValid o.device = true)
    (hi : w.repoInitExit = 0) (hs : w.repoSyncExit = 0) :
    ∃ o2 evs, setup_environment o w = (.ok (o2, true), evs) ∧
      (o2 = o ∨ o2 = { o with skip_sync := false }) ∧
      o2.rom = o.rom ∧ o2.device = o.device ∧ o2.variant = o.variant ∧
      o2.use_server_path = o.use_server_path ∧
      o2.date_string = o.date_string := by
  rw [romValid, Option.isSome_iff_exists] at hr
  rw [deviceValid, Option.isSome_iff_exists] at hd
  obtain ⟨ri, hR⟩ := hr
  obtain ⟨di, hD⟩ := hd
  have hok := syncEvents_ok ri w hi hs
  unfold setup_environment
  rw [hR, hD]
  by_cases hskip : o.skip_sync = true <;>
  by_cases hdir : isdir w ("~/" ++ ri.directory) = true <;>
  simp_all

theorem buildDispatch_ok (o : BuildOptions) (w : World)
    (hdoc : w.docWriteOk = true) :
    (buildDispatch o w).1 = .ok () ∧
    Event.elapsedTime ∉ (buildDispatch o w).2 ∧
    Event.upload ∉ (buildDispatch o w).2 ∧
    logWrites (buildDispatch o w).2 = [] := by
  unfold buildDispatch build_axion build_lmodroid generate_docs
  by_cases hax : (o.rom == "axion") = true <;>
  by_cases hboth : (o.variant == "both") = true <;>
  simp_all [hdoc, Except.map, logWrites, List.filterMap_cons,
    List.filterMap_append]

theorem buildDispatch_err (o : BuildOptions) (w : World)
    (hdoc : w.docWriteOk = false) :
    (∃ p, (buildDispatch o w).1 = .error (.ioError p)) ∧
    Event.elapsedTime ∉ (buildDispatch o w).2 ∧
    logWrites (buildDispatch o w).2 = [] := by
  unfold buildDispatch build_axion build_lmodroid generate_docs
  by_cases hax : (o.rom == "axion") = true <;>
  by_cases hboth : (o.variant == "both") = true <;>
  simp_all [hdoc, Except.map, logWrites, List.filterMap_cons,
    List.filterMap_append]

theorem buildDispatch_logWrites (o : BuildOptions) (w : World) :
    logWrites (buildDispatch o w).2 = [] := by
  by_cases hdoc : w.docWriteOk = true
  · exact (buildDispatch_ok o w hdoc).2.2.2
  · exact (buildDispatch_err o w (by simpa using hdoc)).2.2

theorem buildDispatch_both (o : BuildOptions) (w : World)
    (hrom : o.rom = "axion") (hvar : o.variant = "both")
    (hdoc : w.docWriteOk = true) :
    (buildDispatch o w).1 = .ok () ∧
    buildEvents (buildDispatch o w).2 =
      [Event.buildAxion "vanilla" o.device, Event.buildAxion "gms" o.device] ∧
    docEvents (buildDispatch o w).2 =
      [Event.docGen (docFile o (some "vanilla")),
       Event.docGen (docFile o (some "gms"))] := by
  unfold buildDispatch build_axion generate_docs
  simp [hrom, hvar, hdoc, Except.map, buildEvents, docEvents,
    List.filter_cons, List.filter_append]

theorem buildDispatch_single (o : BuildOptions) (w : World)
    (hrom : o.rom = "axion") (hvar : o.variant ≠ "both")
    (hdoc : w.docWriteOk = true) :
    (buildDispatch o w).1 = .ok () ∧
    Event.buildAxion o.variant o.device ∈ (buildDispatch o w).2 := by
  unfold buildDispatch build_axion generate_docs
  simp [hrom, hvar, hdoc, Except.map]

theorem docFile_congr (o o2 : BuildOptions) (v : Option String)
    (h1 : o2.rom = o.rom) (h2 : o2.device = o.device)
    (h3 : o2.use_server_path = o.use_server_path)
    (h4 : o2.date_string = o.date_string) :
    docFile o2 v = docFile o v := by
  unfold docFile
  rw [h1, h2, h3, h4]

/-- C10: the error classifier `analyze_build_error` returns `False` for
every input — whether the log file is missing (`none`), matches one of the
known failure signatures, or matches none — so its boolean result never
indicates whether a classification was found. -/
theorem c10_analyze_build_error_always_false (log : Option String) :
    (analyze_build_error log).1 = false := by
  cases log <;> rfl

/-- C5: for every log content that contains the substring
`No space left on device` and matches none of the earlier signatures in the
fixed priority order (the missing-package regex, the C++ member regex and
the `Out of memory` substring), the classifier reports the disk-space
category — and, being a single value, no other category — regardless of any
other substrings present; the first matching signature in the fixed order
wins. -/
theorem c5_disk_space_category (content : String)
    (h1 : regexSearchSandwich "error: package ".toList
      " does not exist".toList content.toList = false)
    (h2 : regexSearchSandwich ("error: " ++ squote).toList
      (squote ++ " has no member named").toList content.toList = false)
    (h3 : containsSubstr "Out of memory" content = false)
    (h4 : containsSubstr "No space left on device" content = true) :
    classifyLog content = .diskSpace ∧
    analyze_build_error (some content) = (false, some .diskSpace) := by
  have hc : classifyLog content = .diskSpace := by
    unfold classifyLog
    rw [h1, h2, h3, h4]
    simp
  exact ⟨hc, by simp [analyze_build_error, hc]⟩

theorem c5_disk_space_category_witness :
    classifyLog "mount: No space left on device while writing out" =
      .diskSpace ∧
    analyze_build_error (some "mount: No space left on device while writing out") =
      (false, some .diskSpace) :=
  c5_disk_space_category "mount: No space left on device while writing out"
    (by decide) (by decide) (by decide) (by decide)

/-- C1: artifact file names are a pure function of
(rom, device, variant, date-stamp, fastboot-flag); for rom=axion,
device=pipa, variant=vanilla, date=20240101, fastboot=false the primary
package name contains `axion`, `20240101`, `OFFICIAL`, `VANILLA` and
`pipa` and is accompanied by the OTA file name `pipa-vanilla.json`, and
with fastboot=true a FASTBOOT-suffixed package name is produced alongside
the primary.  (Settled against the spec-modelled naming functions: the
script that derives these names is not part of `src/`.) -/
theorem c1_artifact_names :
    containsSubstr "axion"
      (primaryPackageName "axion" versionToken "20240101" true "vanilla" "pipa")
      = true ∧
    containsSubstr "20240101"
      (primaryPackageName "axion" versionToken "20240101" true "vanilla" "pipa")
      = true ∧
    containsSubstr "OFFICIAL"
      (primaryPackageName "axion" versionToken "20240101" true "vanilla" "pipa")
      = true ∧
    containsSubstr "VANILLA"
      (primaryPackageName "axion" versionToken "20240101" true "vanilla" "pipa")
      = true ∧
    containsSubstr "pipa"
      (primaryPackageName "axion" versionToken "20240101" true "vanilla" "pipa")
      = true ∧
    artifactNames "axion" versionToken "20240101" true "vanilla" "pipa" false =
      [primaryPackageName "axion" versionToken "20240101" true "vanilla" "pipa",
       otaMetadataFileName "pipa" "vanilla"] ∧
    otaMetadataFileName "pipa" "vanilla" = "pipa-vanilla.json" ∧
    artifactNames "axion" versionToken "20240101" true "vanilla" "pipa" true =
      [primaryPackageName "axion" versionToken "20240101" true "vanilla" "pipa",
       fastbootPackageName "axion" versionToken "20240101" true "vanilla" "pipa"] ∧
    containsSubstr "FASTBOOT"
      (fastbootPackageName "axion" versionToken "20240101" true "vanilla" "pipa")
      = true := by
  decide

/-- C6: an unknown ROM or device value supplied via flags in
non-interactive mode makes the process exit with code 1 before any side
effect — the event trace holds nothing but the error message, so no
directory is created and no subprocess is invoked — and the message printed
lists the valid options. -/
theorem c6_invalid_selection_exits_early (a : Args) (w : World) (v : String)
    (_hn : a.non_interactive = true)
    (hbad : (a.rom = some v ∧ v ≠ "" ∧ romValid v = false) ∨
            ((a.rom.getD "" = "" ∨ romValid (a.rom.getD "") = true) ∧
              a.device = some v ∧ v ≠ "" ∧ deviceValid v = false)) :
    (mainEntry a w).1 = .ok (1, optionsOfArgs a w.today) ∧
    ((mainEntry a w).2 = [Event.consoleError (romErrMsg v)] ∨
     (mainEntry a w).2 = [Event.consoleError (deviceErrMsg v)]) ∧
    (∃ p, romErrMsg v = p ++ "axion, lmodroid") ∧
    (∃ p, deviceErrMsg v = p ++ "pipa, raven") := by
  refine ⟨?_, ?_, ⟨_, rfl⟩, ⟨_, rfl⟩⟩ <;>
  · rcases hbad with ⟨hrom, hne, hinv⟩ | ⟨hok, hdev, hne, hinv⟩
    · simp [mainEntry, optionsOfArgs, hrom, hne, hinv]
    · rcases hok with hok | hok <;>
        simp [mainEntry, optionsOfArgs, hok, hdev, hne, hinv]

theorem c6_invalid_selection_exits_early_witness :
    (mainEntry argsBadRom goodWorld).1 =
      .ok (1, optionsOfArgs argsBadRom goodWorld.today) ∧
    ((mainEntry argsBadRom goodWorld).2 =
      [Event.consoleError (romErrMsg "foo")] ∨
     (mainEntry argsBadRom goodWorld).2 =
      [Event.consoleError (deviceErrMsg "foo")]) ∧
    (∃ p, romErrMsg "foo" = p ++ "axion, lmodroid") ∧
    (∃ p, deviceErrMsg "foo" = p ++ "pipa, raven") :=
  c6_invalid_selection_exits_early argsBadRom goodWorld "foo" rfl
    (Or.inl ⟨rfl, by decide, by decide⟩)

/-- C2 counterexample: with interactivity disabled, rom=axion, device=pipa
and the variant flag absent, the program does not fail at all — it runs to
completion with exit code 0 and even narrates a build of the empty-string
variant.  There is no `MissingSelection` (or any) validation of missing
fields. -/
theorem c2_counterexample :
    exitCode (mainEntry argsVariantMissing goodWorld).1 = some 0 ∧
    Event.buildAxion "" "pipa" ∈ (mainEntry argsVariantMissing goodWorld).2 := by
  exact ⟨by decide, by decide⟩

/-- C2 (amended): with interactivity disabled, a missing ROM or device
selection is not reported as a controlled `MissingSelection` failure —
`setup_environment` looks the empty string up in the configuration tables
and the run aborts with an uncaught `KeyError` (the interpreter then exits
non-zero); with rom=axion and only the variant missing, the run simply
proceeds, building the empty-string variant and exiting 0. -/
theorem c2_amended_missing_selection (a : Args) (w : World)
    (hn : a.non_interactive = true) (hdeps : w.depsOk = true) :
    (a.rom.getD "" = "" →
      (a.device.getD "" = "" ∨ deviceValid (a.device.getD "") = true) →
      (a.variant.getD "" = "" ∨ variantValid (a.variant.getD "") = true) →
      (mainEntry a w).1 = .error (.keyError "")) ∧
    (a.rom = some "axion" → a.device.getD "" = "" →
      (a.variant.getD "" = "" ∨ variantValid (a.variant.getD "") = true) →
      (mainEntry a w).1 = .error (.keyError "")) ∧
    (a.rom = some "axion" → a.device = some "pipa" → a.variant.getD "" = "" →
      w.repoInitExit = 0 → w.repoSyncExit = 0 → w.docWriteOk = true →
      exitCode (mainEntry a w).1 = some 0 ∧
      Event.buildAxion "" "pipa" ∈ (mainEntry a w).2) := by
  have h0 : ROM_INFO.lookup ("" : String) = none := by decide
  have h0d : DEVICE_INFO.lookup ("" : String) = none := by decide
  refine ⟨?_, ?_, ?_⟩
  · intro hr hd hv
    rcases hd with hd | hd <;> rcases hv with hv | hv <;>
      simp [mainEntry, optionsOfArgs, run, resolvedOptions, missingSelections,
        setup_environment, hn, hdeps, hr, hd, hv, h0]
  · intro hr hd hv
    have hax : ROM_INFO.lookup "axion" = some axionInfo := by decide
    rcases hv with hv | hv <;>
      simp [mainEntry, optionsOfArgs, run, resolvedOptions, missingSelections,
        setup_environment, hn, hdeps, hr, hd, hv, h0d, hax, romValid]
  · intro hr hd hv hi hs hdoc
    have horom : (optionsOfArgs a w.today).rom = "axion" := by
      simp [optionsOfArgs, hr]
    have hodev : (optionsOfArgs a w.today).device = "pipa" := by
      simp [optionsOfArgs, hd]
    have hovar : (optionsOfArgs a w.today).variant = "" := by
      simp [optionsOfArgs, hv]
    have hoint : (optionsOfArgs a w.today).interactive = false := by
      simp [optionsOfArgs, hn]
    have hres := resolvedOptions_noninteractive (optionsOfArgs a w.today) w hoint
    obtain ⟨o2, evs, hEq, _, ho2rom, ho2dev, ho2var, _, _⟩ :=
      setup_environment_success (optionsOfArgs a w.today) w
        (by rw [horom]; decide) (by rw [hodev]; decide) hi hs
    have hdisp := buildDispatch_single o2 w (ho2rom.trans horom)
      (by rw [ho2var, hovar]; decide) hdoc
    have hB : buildDispatch o2 w = (.ok (), (buildDispatch o2 w).2) := by
      rw [← hdisp.1]
    have hrun : run (optionsOfArgs a w.today) w =
        (.ok (0, o2),
          (setup_logging w.timestamp (optionsOfArgs a w.today)).map Event.logWrite
            ++ evs ++ (buildDispatch o2 w).2 ++ [Event.elapsedTime]) := by
      rw [run, hdeps]
      simp only [Bool.not_true, Bool.false_eq_true, if_false, hres, hEq]
      rw [hB]
    have hmem : Event.buildAxion "" "pipa" ∈ (buildDispatch o2 w).2 := by
      have := hdisp.2
      rwa [ho2var.trans hovar, ho2dev.trans hodev] at this
    have hc1 : ((optionsOfArgs a w.today).rom != "" &&
        !(romValid (optionsOfArgs a w.today).rom)) = false := by
      rw [horom]; decide
    have hc2 : ((optionsOfArgs a w.today).device != "" &&
        !(deviceValid (optionsOfArgs a w.today).device)) = false := by
      rw [hodev]; decide
    have hc3 : ((optionsOfArgs a w.today).variant != "" &&
        !(variantValid (optionsOfArgs a w.today).variant)) = false := by
      rw [hovar]; decide
    have hmainEq : mainEntry a w =
        ((run (optionsOfArgs a w.today) w).1,
          Event.mkdir "~/rom_build_logs" ::
            (run (optionsOfArgs a w.today) w).2) := by
      unfold mainEntry
      simp only [hc1, hc2, hc3, Bool.false_eq_true, if_false]
    constructor
    · rw [hmainEq, hrun]
      rfl
    · rw [hmainEq, hrun]
      simp only [List.mem_cons, List.mem_append]
      tauto

theorem c2_amended_missing_selection_witness :
    (mainEntry argsRomMissing goodWorld).1 = .error (.keyError "") :=
  (c2_amended_missing_selection argsRomMissing goodWorld rfl rfl).1 rfl
    (Or.inr (by decide)) (Or.inl rfl)

/-- C3 counterexample: a skip-sync run against an existing `~/ax` directory
in a world containing no files at all — in particular no source-tree marker
file — neither falls back to a full sync (no `repo init` is ever executed,
nothing is removed) nor fails with an `InvalidSourceTree` error: it runs to
completion with exit code 0 and narrates the build. -/
theorem c3_counterexample :
    treeWorld.files = [] ∧
    exitCode (run skipOpts treeWorld).1 = some 0 ∧
    Event.buildAxion "vanilla" "pipa" ∈ (run skipOpts treeWorld).2 ∧
    Event.runCmd axionRepoInit ∉ (run skipOpts treeWorld).2 ∧
    Event.rmtree "~/ax" ∉ (run skipOpts treeWorld).2 := by
  exact ⟨rfl, by decide, by decide, by decide, by decide⟩

/-- C3 (amended): for a skip-sync axion/pipa run, only the *existence* of
the expected source directory is validated.  If `~/ax` does not exist the
script falls back to a full sync (clearing the skip-sync option and issuing
the `repo init`; nothing is removed since nothing exists); if `~/ax`
exists, the script reuses it with a plain `chdir` and no marker-file
validation whatsoever — there is no `InvalidSourceTree` error anywhere in
the script. -/
theorem c3_amended_skip_sync_validation (o : BuildOptions) (w : World)
    (hskip : o.skip_sync = true) (hrom : o.rom = "axion")
    (hdev : o.device = "pipa") :
    (isdir w "~/ax" = false →
      ∃ o2 ok evs, setup_environment o w = (.ok (o2, ok), evs) ∧
        o2.skip_sync = false ∧
        Event.runCmd axionRepoInit ∈ evs ∧
        Event.mkdir "~/ax" ∈ evs ∧
        Event.rmtree "~/ax" ∉ evs) ∧
    (isdir w "~/ax" = true →
      ∃ evs, setup_environment o w = (.ok (o, true), evs) ∧
        evs.head? = some (Event.chdir "~/ax") ∧
        Event.runCmd axionRepoInit ∉ evs ∧
        Event.rmtree "~/ax" ∉ evs) := by
  have hR : ROM_INFO.lookup o.rom = some axionInfo := by
    rw [hrom]; decide
  have hD : (DEVICE_INFO.lookup o.device).isSome = true := by
    rw [hdev]; decide
  rw [Option.isSome_iff_exists] at hD
  obtain ⟨di, hD⟩ := hD
  constructor
  · intro hdir
    unfold setup_environment syncEvents
    rw [hR, hD]
    by_cases h1 : (w.repoInitExit != 0) = true <;>
    by_cases h2 : (w.repoSyncExit != 0) = true <;>
    by_cases h4 : isdir w "~/vendor" = true <;>
    simp_all [hskip, axionInfo, axionRepoInit, and_assoc, exists_eq_left,
      exists_and_left]
  · intro hdir
    unfold setup_environment
    rw [hR, hD]
    by_cases hint : o.interactive = true <;>
    simp_all [hskip, axionInfo, axionRepoInit, and_assoc, exists_eq_left,
      exists_and_left]

theorem c3_amended_skip_sync_validation_witness :
    (isdir goodWorld "~/ax" = false →
      ∃ o2 ok evs, setup_environment skipOpts goodWorld = (.ok (o2, ok), evs) ∧
        o2.skip_sync = false ∧
        Event.runCmd axionRepoInit ∈ evs ∧
        Event.mkdir "~/ax" ∈ evs ∧
        Event.rmtree "~/ax" ∉ evs) ∧
    (isdir goodWorld "~/ax" = true →
      ∃ evs, setup_environment skipOpts goodWorld = (.ok (skipOpts, true), evs) ∧
        evs.head? = some (Event.chdir "~/ax") ∧
        Event.runCmd axionRepoInit ∉ evs ∧
        Event.rmtree "~/ax" ∉ evs) :=
  c3_amended_skip_sync_validation skipOpts goodWorld rfl rfl rfl

/-- C7 counterexample: `setup_environment` mutates the options after they
were constructed — with skip-sync requested and no source tree present, it
clears the `skip_sync` field (source line 525), so `BuildOptions` is not
read-only after construction. -/
theorem c7_counterexample :
    skipOpts.skip_sync = true ∧
    (setup_environment skipOpts goodWorld).1 =
      .ok ({ skipOpts with skip_sync := false }, true) ∧
    ({ skipOpts with skip_sync := false }).skip_sync ≠ skipOpts.skip_sync := by
  exact ⟨rfl, by decide, by decide⟩

/-- C7 (amended): after construction (and interactive resolution), the only
mutation ever applied to the options is `setup_environment` clearing the
`skip_sync` field when the skip-sync fallback triggers; every other field
is left unchanged by the whole run, and a run that fails the dependency
check returns the options untouched. -/
theorem c7_amended_options_frame (o : BuildOptions) (w : World) (c : Nat)
    (o2 : BuildOptions) (h : (run o w).1 = .ok (c, o2)) :
    o2 = o ∨ o2 = resolvedOptions o w ∨
    o2 = { resolvedOptions o w with skip_sync := false } := by
  rw [run] at h
  by_cases hdeps : w.depsOk = true
  · rw [hdeps] at h
    simp only [Bool.not_true, Bool.false_eq_true, if_false] at h
    rcases hS : setup_environment (resolvedOptions o w) w with ⟨r, evS⟩
    rw [hS] at h
    rcases r with e | ⟨o3, ok⟩
    · simp at h
    · have hopts := setup_environment_opts (resolvedOptions o w) w o3 ok
        (by rw [hS])
      rcases hok : ok with _ | _
      · rw [hok] at h
        simp at h
        right
        rw [← h.2]
        exact hopts
      · rw [hok] at h
        simp only [Bool.not_true, Bool.false_eq_true, if_false] at h
        rcases hB : buildDispatch o3 w with ⟨rb, evB⟩
        rw [hB] at h
        rcases rb with e | u
        · simp at h
        · simp at h
          right
          rw [← h.2]
          exact hopts
  · simp only [Bool.not_eq_true] at hdeps
    rw [hdeps] at h
    simp at h
    left
    exact h.2.symm

theorem c7_amended_options_frame_witness :
    { skipOpts with skip_sync := false } = skipOpts ∨
    { skipOpts with skip_sync := false } = resolvedOptions skipOpts goodWorld ∨
    { skipOpts with skip_sync := false } =
      { resolvedOptions skipOpts goodWorld with skip_sync := false } :=
  c7_amended_options_frame skipOpts goodWorld 0
    { skipOpts with skip_sync := false } (by decide)

/-- C8 counterexample: a failure in report generation is not caught — when
the report location is unwritable, `generate_docs` raises an uncaught
`OSError`, the run aborts without reporting elapsed time, and the exit of
the process is the interpreter's traceback, not a logged-and-continued
completion. -/
theorem c8_counterexample :
    (run skipOpts docFailWorld).1 =
      .error (.ioError "/var/www/html/axion-pipa-releases-20240101/vanilla") ∧
    Event.elapsedTime ∉ (run skipOpts docFailWorld).2 := by
  exact ⟨by decide, by decide⟩

/-- C8 (amended): once environment setup succeeded, the exit code of the
run does not depend on the *boolean results* of the build-narration or
documentation steps (they are discarded and the run returns 0 and reports
elapsed time; `upload_build` is never invoked from `run` at all, so no
upload event can occur) — but an *exception* during report generation is
not caught: it aborts the run before the elapsed-time report. -/
theorem c8_amended_failures_not_caught (o : BuildOptions) (w : World)
    (hr : romValid o.rom = true) (hd : deviceValid o.device = true)
    (hni : o.interactive = false) (hdeps : w.depsOk = true)
    (hi : w.repoInitExit = 0) (hs : w.repoSyncExit = 0) :
    (w.docWriteOk = true →
      exitCode (run o w).1 = some 0 ∧
      Event.elapsedTime ∈ (run o w).2 ∧
      Event.upload ∉ (run o w).2) ∧
    (w.docWriteOk = false →
      (∃ p, (run o w).1 = .error (.ioError p)) ∧
      Event.elapsedTime ∉ (run o w).2) := by
  have hres := resolvedOptions_noninteractive o w hni
  obtain ⟨o2, evs, hEq, _, _, _, _, _, _⟩ :=
    setup_environment_success o w hr hd hi hs
  have hclean : cleanTrace evs = true := by
    have h := cleanTrace_setup o w
    rw [hEq] at h
    exact h
  obtain ⟨_, _, _, hSne, hSnu⟩ := cleanTrace_facts evs hclean
  have hLne : Event.elapsedTime ∉
      (setup_logging w.timestamp o).map Event.logWrite := by simp
  have hLnu : Event.upload ∉
      (setup_logging w.timestamp o).map Event.logWrite := by simp
  constructor
  · intro hdoc
    obtain ⟨hB1, hBne, hBnu, _⟩ := buildDispatch_ok o2 w hdoc
    have hB : buildDispatch o2 w = (.ok (), (buildDispatch o2 w).2) := by
      rw [← hB1]
    have hrun : run o w =
        (.ok (0, o2),
          (setup_logging w.timestamp o).map Event.logWrite ++ evs ++
            (buildDispatch o2 w).2 ++ [Event.elapsedTime]) := by
      rw [run, hdeps]
      simp only [Bool.not_true, Bool.false_eq_true, if_false, hres, hEq]
      rw [hB]
    refine ⟨by rw [hrun]; rfl, ?_, ?_⟩
    · rw [hrun]
      simp
    · rw [hrun]
      simp only [List.mem_append, List.mem_singleton]
      rintro (((hc | hc) | hc) | hc)
      · exact hLnu hc
      · exact hSnu hc
      · exact hBnu hc
      · simp at hc
  · intro hdoc
    obtain ⟨⟨p, hB1⟩, hBne, _⟩ := buildDispatch_err o2 w hdoc
    have hB : buildDispatch o2 w = (.error (.ioError p), (buildDispatch o2 w).2) := by
      rw [← hB1]
    have hrun : run o w =
        (.error (.ioError p),
          (setup_logging w.timestamp o).map Event.logWrite ++ evs ++
            (buildDispatch o2 w).2) := by
      rw [run, hdeps]
      simp only [Bool.not_true, Bool.false_eq_true, if_false, hres, hEq]
      rw [hB]
    refine ⟨⟨p, by rw [hrun]⟩, ?_⟩
    rw [hrun]
    simp only [List.mem_append]
    rintro ((hc | hc) | hc)
    · exact hLne hc
    · exact hSne hc
    · exact hBne hc

theorem c8_amended_failures_not_caught_witness :
    exitCode (run skipOpts treeWorld).1 = some 0 ∧
    Event.elapsedTime ∈ (run skipOpts treeWorld).2 ∧
    Event.upload ∉ (run skipOpts treeWorld).2 :=
  (c8_amended_failures_not_caught skipOpts treeWorld (by decide) (by decide)
    rfl rfl rfl rfl).1 rfl

/-- C9 counterexample: `setup_logging` runs before the interactive
prompts, so for an interactive run that selects its ROM via the menus the
log-file header does not contain the selected ROM at all — it records the
(empty) pre-prompt values.  Here the selected ROM is `axion`, the run
completes with exit 0, and no written log line mentions `axion`. -/
theorem c9_counterexample :
    (run promptOpts goodWorld).1 =
      .ok (0, resolveOptions promptOpts goodWorld) ∧
    (resolveOptions promptOpts goodWorld).rom = "axion" ∧
    logWrites (run promptOpts goodWorld).2 =
      setup_logging goodWorld.timestamp promptOpts ∧
    (logWrites (run promptOpts goodWorld).2).all
      (fun l => !(containsSubstr "axion" l)) = true := by
  exact ⟨by decide, by decide, by decide, by decide⟩

/-- C9 (amended): for every run that passes the dependency check, the
per-run log file receives exactly the three header lines (timestamp, the
ROM/device/variant and the skip-sync/clean-build flags as they stood when
logging was set up, i.e. before interactive prompting — for non-interactive
runs these are exactly the selected values); no operation after
`setup_logging` writes any further line to the file. -/
theorem c9_amended_log_is_header_only (o : BuildOptions) (w : World)
    (hdeps : w.depsOk = true) :
    logWrites (run o w).2 = setup_logging w.timestamp o := by
  rw [run, hdeps]
  simp only [Bool.not_true, Bool.false_eq_true, if_false]
  rcases hS : setup_environment (resolvedOptions o w) w with ⟨r, evS⟩
  have hSlog : logWrites evS = [] := by
    have h1 := cleanTrace_setup (resolvedOptions o w) w
    rw [hS] at h1
    exact (cleanTrace_facts evS h1).1
  rcases r with e | ⟨o2, ok⟩
  · simp [logWrites_append, hSlog, logWrites_map_logWrite]
  · rcases hok : ok with _ | _
    · simp [logWrites_append, hSlog, logWrites_map_logWrite]
    · rcases hB : buildDispatch o2 w with ⟨rb, evB⟩
      have hBlog : logWrites evB = [] := by
        have h2 := buildDispatch_logWrites o2 w
        rw [hB] at h2
        exact h2
      have h3 : logWrites [Event.elapsedTime] = [] := rfl
      rcases rb with e | u <;>
        simp [hB, logWrites_append, hSlog, hBlog, logWrites_map_logWrite, h3]

theorem c9_amended_log_is_header_only_witness :
    logWrites (run skipOpts goodWorld).2 =
      setup_logging goodWorld.timestamp skipOpts :=
  c9_amended_log_is_header_only skipOpts goodWorld rfl

/-- C4: for every run with rom=axion and variant=both that reaches the
build phase (dependencies present, environment setup succeeds, the report
location is writable), the build narrator is invoked exactly twice, first
with variant vanilla and then with variant gms, in that order, and each
invocation independently generates its own per-variant documentation. -/
theorem c4_both_builds_vanilla_then_gms (o : BuildOptions) (w : World)
    (hrom : o.rom = "axion") (hvar : o.variant = "both")
    (hdev : o.device = "pipa" ∨ o.device = "raven")
    (hni : o.interactive = false)
    (hdeps : w.depsOk = true) (hi : w.repoInitExit = 0)
    (hs : w.repoSyncExit = 0) (hdoc : w.docWriteOk = true) :
    buildEvents (run o w).2 =
      [Event.buildAxion "vanilla" o.device, Event.buildAxion "gms" o.device] ∧
    docEvents (run o w).2 =
      [Event.docGen (docFile o (some "vanilla")),
       Event.docGen (docFile o (some "gms"))] := by
  have hres := resolvedOptions_noninteractive o w hni
  obtain ⟨o2, evs, hEq, _, ho2rom, ho2dev, ho2var, ho2srv, ho2date⟩ :=
    setup_environment_success o w (by rw [hrom]; decide)
      (by rcases hdev with h | h <;> (rw [h]; decide)) hi hs
  have hclean : cleanTrace evs = true := by
    have h := cleanTrace_setup o w
    rw [hEq] at h
    exact h
  obtain ⟨_, hSbuild, hSdoc, _, _⟩ := cleanTrace_facts evs hclean
  obtain ⟨hB1, hBbuild, hBdoc⟩ :=
    buildDispatch_both o2 w (ho2rom.trans hrom) (ho2var.trans hvar) hdoc
  have hB : buildDispatch o2 w = (.ok (), (buildDispatch o2 w).2) := by
    rw [← hB1]
  have hrun : run o w =
      (.ok (0, o2),
        (setup_logging w.timestamp o).map Event.logWrite ++ evs ++
          (buildDispatch o2 w).2 ++ [Event.elapsedTime]) := by
    rw [run, hdeps]
    simp only [Bool.not_true, Bool.false_eq_true, if_false, hres, hEq]
    rw [hB]
  have hfix : docFile o2 (some "vanilla") = docFile o (some "vanilla") :=
    docFile_congr o o2 _ ho2rom ho2dev ho2srv ho2date
  have hfix2 : docFile o2 (some "gms") = docFile o (some "gms") :=
    docFile_congr o o2 _ ho2rom ho2dev ho2srv ho2date
  have hb1 : buildEvents [Event.elapsedTime] = [] := rfl
  have hd1 : docEvents [Event.elapsedTime] = [] := rfl
  rw [ho2dev] at hBbuild
  rw [hfix, hfix2] at hBdoc
  constructor
  · rw [hrun]
    simp [buildEvents_append, buildEvents_map_logWrite, hSbuild, hBbuild, hb1]
  · rw [hrun]
    simp [docEvents_append, docEvents_map_logWrite, hSdoc, hBdoc, hd1]

theorem c4_both_builds_vanilla_then_gms_witness :
    buildEvents (run bothOpts goodWorld).2 =
      [Event.buildAxion "vanilla" bothOpts.device,
       Event.buildAxion "gms" bothOpts.device] ∧
    docEvents (run bothOpts goodWorld).2 =
      [Event.docGen (docFile bothOpts (some "vanilla")),
       Event.docGen (docFile bothOpts (some "gms"))] :=
  c4_both_builds_vanilla_then_gms bothOpts goodWorld rfl rfl (Or.inl rfl)
    rfl rfl rfl rfl rfl
